import Mathlib

set_option linter.unusedVariables false

/-!
Shallow embedding of the request-processing slice of the meta-protocol proxy:
the router's upstream-request state machine (`upstream_request.cc`), the
`prepareUpstreamRequest` helper (`router.h`), the weighted-cluster selection of
the route matcher (`route_matcher_impl.h`), and the local rate limiter
(`local_ratelimit_impl.h`).

Calls the upstream request makes on its owning `RequestOwner`, on the selected
host's outlier detector, and on the connection pool are modelled as an explicit
trace of `Event`s; the member fields of the C++ objects become a record that
each method transforms.  Exception message strings are built with an explicit
single-quote character, mirroring the fmt strings of the source.
-/

/-- Message types carried by `Metadata` (data model of the proxy). -/
inductive MessageType where
  | Request
  | Response
  | Oneway
  | Stream_Init
  | Stream_Data
  | Stream_Close
  | Heartbeat
  deriving DecidableEq, Repr

/-- Source `ConnectionPool::PoolFailureReason` (Envoy tcp conn-pool interface). -/
inductive PoolFailureReason where
  | Overflow
  | Timeout
  | LocalConnectionFailure
  | RemoteConnectionFailure
  deriving DecidableEq, Repr

/-- Source `Upstream::Outlier::Result` values used by the router slice. -/
inductive OutlierResult where
  | LocalOriginTimeout
  | LocalOriginConnectFailed
  | LocalOriginConnectSuccess
  deriving DecidableEq, Repr

/-- Error types of `Error` / `AppException` used by the router slice. -/
inductive ErrorType where
  | ClusterNotFound
  | NoHealthyUpstream
  | Unspecified
  deriving DecidableEq, Repr

/-- Source `Tcp::ConnectionPool::CancelPolicy`. -/
inductive CancelPolicy where
  | Default
  | CloseExcess
  deriving DecidableEq, Repr

/-- Source `Network::ConnectionCloseType` (only `NoFlush` is used by this slice). -/
inductive ConnectionCloseType where
  | NoFlush
  | FlushWrite
  deriving DecidableEq, Repr

/-- Source `Network::ConnectionEvent` cases handled by `onUpstreamConnectionEvent`. -/
inductive ConnectionEvent where
  | RemoteClose
  | LocalClose
  | Connected
  deriving DecidableEq, Repr

/-- Source `FilterStatus` returned by decoder entry points (`filter_define.h`). -/
inductive FilterStatus where
  | ContinueIteration
  | PauseIteration
  | StopIteration
  | Retry
  deriving DecidableEq, Repr

/-- A single-quote character, used when the source quotes a name in a
fmt string such as `unknown cluster placeholder`. -/
def singleQuote : String :=
  String.singleton (Char.ofNat 39)

/-- Wrap a string in single quotes, as the fmt strings of the source do. -/
def quoted (s : String) : String :=
  singleQuote ++ s ++ singleQuote

/-- The reserved metadata key `ReservedHeaders::RealServerAddress`. -/
def ReservedHeaders.RealServerAddress : String :=
  "RealServerAddress"

/-- Per-message metadata: message type, ids, string properties and the length
of the owned origin-message buffer (byte contents are irrelevant to the
claims, only lengths and moves are tracked). -/
structure Metadata where
  messageType : MessageType
  requestId : Nat
  streamId : Nat
  strings : List (String × String)
  originMessageLen : Nat
  deriving DecidableEq, Repr

/-- Source `Metadata::putString`: later puts shadow earlier ones. -/
def Metadata.putString (m : Metadata) (k v : String) : Metadata :=
  { m with strings := (k, v) :: m.strings }

/-- Look up a string property of the metadata. -/
def Metadata.getString (m : Metadata) (k : String) : Option String :=
  (m.strings.find? (fun p => p.1 == k)).map (fun p => p.2)

/-- Source `Tcp::ConnectionPool::ConnectionData`: the claims only observe the remote
address of the wrapped upstream connection. -/
structure ConnData where
  remoteAddress : String
  deriving DecidableEq, Repr

/-- One observable action of an upstream request: a call on the owning
`RequestOwner`, on the selected host's outlier detector, on the pending pool
handle, or on the upstream connection. -/
inductive Event where
  | parentOnUpstreamHostSelected (host : String)
  | continueDecoding
  | sendLocalReply (err : ErrorType) (msg : String) (endStream : Bool)
  | resetStream
  | setUpstreamConnection (conn : ConnData)
  | putOutlierResult (r : OutlierResult)
  | cancelPoolHandle (p : CancelPolicy)
  | closeUpstreamConnection (t : ConnectionCloseType)
  | addUpstreamCallbacks
  | putMetadataString (k v : String)
  | encodeAndWrite (len : Nat)
  | onRequestCompleteMark
  deriving DecidableEq, Repr

/-- Member state of `UpstreamRequestBase` / `UpstreamRequest`
(`upstream_request.h`, fields visible in `upstream_request.cc`). -/
structure UpstreamRequestState where
  metadata : Metadata
  upstream_request_buffer_len : Nat
  conn_pool_handle_ : Option Nat
  conn_data_ : Option ConnData
  upstream_host_ : Option String
  request_complete_ : Bool
  response_started_ : Bool
  response_complete_ : Bool
  stream_reset_ : Bool
  deriving DecidableEq, Repr

/-- Constructor `UpstreamRequestBase::UpstreamRequestBase`: flags start false
and the origin message is moved out of the metadata into the request buffer. -/
def mkUpstreamRequest (metadata : Metadata) : UpstreamRequestState :=
  { metadata := { metadata with originMessageLen := 0 }
    upstream_request_buffer_len := metadata.originMessageLen
    conn_pool_handle_ := none
    conn_data_ := none
    upstream_host_ := none
    request_complete_ := false
    response_started_ := false
    response_complete_ := false
    stream_reset_ := false }

/-- Address of the selected upstream host, as dereferenced by the fmt strings
(`upstream_host_->address()->asString()`). -/
def UpstreamRequestState.hostAddr (s : UpstreamRequestState) : String :=
  (s.upstream_host_).getD ""

/-- Source `UpstreamRequest::start`: a non-null handle from `newConnection` is stored
and the filter chain pauses; otherwise iteration continues. -/
def UpstreamRequest.start (s : UpstreamRequestState) (handle : Option Nat) :
    UpstreamRequestState × FilterStatus :=
  match handle with
  | some h => ({ s with conn_pool_handle_ := some h }, FilterStatus.PauseIteration)
  | none => (s, FilterStatus.ContinueIteration)

/-- Source `UpstreamRequestBase::onUpstreamConnectionReset`: Oneway requests reset the
downstream stream without any reply; otherwise a reason-specific AppException
local reply is sent, then the stream is reset unless the response completed. -/
def onUpstreamConnectionReset (s : UpstreamRequestState) (reason : PoolFailureReason) :
    List Event :=
  if s.metadata.messageType = MessageType.Oneway then
    [Event.resetStream]
  else
    (match reason with
      | PoolFailureReason.Overflow =>
          [Event.sendLocalReply ErrorType.Unspecified
            "meta protocol upstream request: too many connections" false]
      | PoolFailureReason.LocalConnectionFailure =>
          [Event.sendLocalReply ErrorType.Unspecified
            ("meta protocol upstream request: local connection failure " ++
              quoted s.hostAddr) false]
      | PoolFailureReason.RemoteConnectionFailure =>
          [Event.sendLocalReply ErrorType.Unspecified
            ("meta protocol upstream request: remote connection failure " ++
              quoted s.hostAddr) false]
      | PoolFailureReason.Timeout =>
          [Event.sendLocalReply ErrorType.Unspecified
            ("meta protocol upstream request: connection failure " ++
              quoted s.hostAddr ++ " due to timeout") false]) ++
    (if s.response_complete_ then [] else [Event.resetStream])

/-- Source `UpstreamRequestBase::onUpstreamConnectionEvent`: RemoteClose is treated as
a remote connection failure and reported to the outlier detector; LocalClose as
a local connection failure.  (`Connected` is consumed by the pool; the source
panics there, modelled as an empty trace.) -/
def onUpstreamConnectionEvent (s : UpstreamRequestState) (event : ConnectionEvent) :
    List Event :=
  match event with
  | ConnectionEvent.RemoteClose =>
      onUpstreamConnectionReset s PoolFailureReason.RemoteConnectionFailure ++
        [Event.putOutlierResult OutlierResult.LocalOriginConnectFailed]
  | ConnectionEvent.LocalClose =>
      onUpstreamConnectionReset s PoolFailureReason.LocalConnectionFailure
  | ConnectionEvent.Connected => []

/-- Source `UpstreamRequest::releaseUpStreamConnection`: mark the stream reset, cancel
and clear a pending pool handle, move `conn_data_` out to a local owner, and
close the moved connection with NoFlush only when `close` was requested and a
connection was held. -/
def UpstreamRequest.releaseUpStreamConnection (s : UpstreamRequestState) (close : Bool) :
    UpstreamRequestState × List Event :=
  let s1 := { s with stream_reset_ := true }
  let cancelEvents :=
    match s1.conn_pool_handle_ with
    | some _ => [Event.cancelPoolHandle CancelPolicy.Default]
    | none => []
  let s2 := { s1 with conn_pool_handle_ := none }
  let conn_data := s2.conn_data_
  let s3 := { s2 with conn_data_ := none }
  let closeEvents :=
    if close && conn_data.isSome then
      [Event.closeUpstreamConnection ConnectionCloseType.NoFlush]
    else []
  (s3, cancelEvents ++ closeEvents)

/-- Source `UpstreamRequest::encodeData`: encode via the codec and write to the held
upstream connection.  The source asserts `conn_data_` is held and no pool
handle is pending at this point. -/
def UpstreamRequest.encodeData (s : UpstreamRequestState) (dataLen : Nat) : List Event :=
  [Event.encodeAndWrite dataLen]

/-- Source `UpstreamRequestBase::onRequestStart`: continue the paused decoder chain
only when asked to. -/
def onRequestStart (continue_decoding : Bool) : List Event :=
  if continue_decoding then [Event.continueDecoding] else []

/-- Source `UpstreamRequest::onPoolFailure`: record the host, clear the handle, mimic
an upstream reset, drain the request buffer; for the asynchronous reasons
(Timeout / LocalConnectionFailure / RemoteConnectionFailure) report Timeout and
RemoteConnectionFailure to the outlier detector and resume the decoder chain. -/
def UpstreamRequest.onPoolFailure (s : UpstreamRequestState) (reason : PoolFailureReason)
    (host : String) : UpstreamRequestState × List Event :=
  let s1 := { s with conn_pool_handle_ := none, upstream_host_ := some host }
  let resetEvents := onUpstreamConnectionReset s1 reason
  let s2 := { s1 with upstream_request_buffer_len := 0 }
  let tail :=
    if reason = PoolFailureReason.Timeout ∨
        reason = PoolFailureReason.LocalConnectionFailure ∨
        reason = PoolFailureReason.RemoteConnectionFailure then
      (if reason = PoolFailureReason.Timeout then
        [Event.putOutlierResult OutlierResult.LocalOriginTimeout]
      else if reason = PoolFailureReason.RemoteConnectionFailure then
        [Event.putOutlierResult OutlierResult.LocalOriginConnectFailed]
      else []) ++ [Event.continueDecoding]
    else []
  (s2, [Event.parentOnUpstreamHostSelected host] ++ resetEvents ++ tail)

/-- The member state of an `UpstreamRequest` at the point inside `onPoolReady`
where `encodeData` is invoked: host recorded, `conn_data_` stored, pool handle
cleared, `RealServerAddress` written. -/
def UpstreamRequest.poolReadyMidState (s : UpstreamRequestState) (conn : ConnData)
    (host : String) : UpstreamRequestState :=
  { s with
    upstream_host_ := some host
    conn_data_ := some conn
    conn_pool_handle_ := none
    metadata := s.metadata.putString ReservedHeaders.RealServerAddress conn.remoteAddress }

/-- Source `UpstreamRequest::onPoolReady`: record the host, decide whether to resume
the chain (iff a pool handle was pending), store the connection data, register
upstream callbacks only for Request messages, write `RealServerAddress` into
the metadata, resume and encode, and for Stream_Init reset the router stream
and transfer the connection data to the parent, before `onRequestComplete`.
(`onRequestComplete` is declared outside this slice; it is modelled as a trace
mark plus setting `request_complete_`.) -/
def UpstreamRequest.onPoolReady (s : UpstreamRequestState) (conn : ConnData)
    (host : String) : UpstreamRequestState × List Event :=
  let continue_decoding := s.conn_pool_handle_.isSome
  let sMid := UpstreamRequest.poolReadyMidState s conn host
  let cbEvents :=
    if sMid.metadata.messageType = MessageType.Request then
      [Event.addUpstreamCallbacks]
    else []
  let startEvents := onRequestStart continue_decoding
  let encodeEvents := UpstreamRequest.encodeData sMid sMid.upstream_request_buffer_len
  let streamStep :=
    if sMid.metadata.messageType = MessageType.Stream_Init then
      ({ sMid with conn_data_ := none },
        [Event.resetStream, Event.setUpstreamConnection conn])
    else (sMid, ([] : List Event))
  ({ streamStep.1 with request_complete_ := true },
    [Event.parentOnUpstreamHostSelected host,
      Event.putOutlierResult OutlierResult.LocalOriginConnectSuccess] ++
    cbEvents ++
    [Event.putMetadataString ReservedHeaders.RealServerAddress conn.remoteAddress] ++
    startEvents ++ encodeEvents ++ streamStep.2 ++ [Event.onRequestCompleteMark])

/-- Source `UpstreamRequest::onResponseComplete`: mark the response complete and drop
the connection data (returning the connection to the pool). -/
def UpstreamRequest.onResponseComplete (s : UpstreamRequestState) : UpstreamRequestState :=
  { s with response_complete_ := true, conn_data_ := none }

/-- Source `UpstreamRequestByHandler::onPoolFailure`: like the pool-based variant but
with no pool handle to clear and no outlier reporting. -/
def UpstreamRequestByHandler.onPoolFailure (s : UpstreamRequestState)
    (reason : PoolFailureReason) (host : String) : UpstreamRequestState × List Event :=
  let s1 := { s with upstream_host_ := some host }
  let resetEvents := onUpstreamConnectionReset s1 reason
  let s2 := { s1 with upstream_request_buffer_len := 0 }
  let tail :=
    if reason = PoolFailureReason.Timeout ∨
        reason = PoolFailureReason.LocalConnectionFailure ∨
        reason = PoolFailureReason.RemoteConnectionFailure then
      [Event.continueDecoding]
    else []
  (s2, [Event.parentOnUpstreamHostSelected host] ++ resetEvents ++ tail)

/-- Does a trace contain a `sendLocalReply` call of any payload? -/
def hasLocalReply (es : List Event) : Bool :=
  es.any fun e =>
    match e with
    | Event.sendLocalReply _ _ _ => true
    | _ => false

/-- The outlier-detector results reported along a trace, in order. -/
def outlierResults (es : List Event) : List OutlierResult :=
  es.filterMap fun e =>
    match e with
    | Event.putOutlierResult r => some r
    | _ => none

/-- The conn-pool data returned by `ThreadLocalCluster::tcpConnPool`; its
contents are opaque to the router slice. -/
structure TcpPoolData where
  poolId : Nat
  deriving DecidableEq, Repr

/-- A thread-local cluster as observed by `prepareUpstreamRequest`: whether it
is in maintenance mode and the outcome of `tcpConnPool(Default, lb_context)`
for the current call. -/
structure ThreadLocalCluster where
  maintenanceMode : Bool
  tcpConnPool : Option TcpPoolData
  deriving DecidableEq, Repr

/-- Source `AppException` wraps an `Error` (type plus message). -/
structure AppException where
  errorType : ErrorType
  message : String
  deriving DecidableEq, Repr

/-- Source `RequestOwner::PrepareUpstreamRequestResult` (`router.h`). -/
structure PrepareUpstreamRequestResult where
  exception : Option AppException
  conn_pool_data : Option TcpPoolData
  response_code_detail : String
  deriving DecidableEq, Repr

/-- Source `RequestOwner::prepareUpstreamRequest` (`router.h`): unknown cluster,
maintenance mode, and missing tcp pool data each produce an exception with a
specific response-code-detail; otherwise the pool data is returned with no
exception and an empty detail.  The cluster manager is modelled as the
`getThreadLocalCluster` lookup function. -/
def prepareUpstreamRequest (getThreadLocalCluster : String → Option ThreadLocalCluster)
    (cluster_name : String) (request_id : Nat) : PrepareUpstreamRequestResult :=
  match getThreadLocalCluster cluster_name with
  | none =>
      { exception := some
          { errorType := ErrorType.ClusterNotFound
            message := "meta protocol router: unknown cluster " ++ quoted cluster_name }
        conn_pool_data := none
        response_code_detail := "unknown_cluster" }
  | some cluster =>
      if cluster.maintenanceMode then
        { exception := some
            { errorType := ErrorType.Unspecified
              message := "meta protocol router: maintenance mode for cluster " ++
                quoted cluster_name }
          conn_pool_data := none
          response_code_detail := "cluster_in_maintenance_mode" }
      else
        match cluster.tcpConnPool with
        | none =>
            { exception := some
                { errorType := ErrorType.NoHealthyUpstream
                  message := "meta protocol router: no healthy upstream for " ++
                    quoted cluster_name }
              conn_pool_data := none
              response_code_detail := "no_healthy_upstream" }
        | some pool =>
            { exception := none, conn_pool_data := some pool, response_code_detail := "" }

/-- Observable view of `prepareUpstreamRequest` stated from the claim's words:
the exception's error type, the returned pool data, and the detail string, for
each of the four cases of the claim. -/
def prepareUpstreamRequestClaimView (getThreadLocalCluster : String → Option ThreadLocalCluster)
    (cluster_name : String) : Option ErrorType × Option TcpPoolData × String :=
  match getThreadLocalCluster cluster_name with
  | none => (some ErrorType.ClusterNotFound, none, "unknown_cluster")
  | some cluster =>
      if cluster.maintenanceMode then
        (some ErrorType.Unspecified, none, "cluster_in_maintenance_mode")
      else
        match cluster.tcpConnPool with
        | none => (some ErrorType.NoHealthyUpstream, none, "no_healthy_upstream")
        | some pool => (none, some pool, "")

/-- One weighted cluster of a route (`RouteEntryImplBase::WeightedClusterEntry`). -/
structure WeightedClusterEntry where
  cluster_name : String
  cluster_weight : Nat
  deriving DecidableEq, Repr

/-- The route-entry fields that cluster selection reads
(`RouteEntryImplBase`, `route_matcher_impl.h`). -/
structure RouteEntryImplBase where
  route_name : String
  cluster_name : String
  weighted_clusters : List WeightedClusterEntry
  total_cluster_weight : Nat
  deriving DecidableEq, Repr

/-- Result of `clusterEntry`: the route itself (primary cluster) or a weighted
cluster entry. -/
inductive RouteChoice where
  | primaryRoute
  | weightedEntry (e : WeightedClusterEntry)
  deriving DecidableEq, Repr

/-- Modelled from the spec: the body of `RouteEntryImplBase::clusterEntry` is
not under `src/` (only its declaration in `route_matcher_impl.h` is); per the
spec, selection iterates the weighted entries in order, accumulating weights,
and returns the first entry whose running sum exceeds `r`. -/
def selectWeightedCluster : List WeightedClusterEntry → Nat → Nat → Option WeightedClusterEntry
  | [], _, _ => none
  | e :: rest, r, acc =>
      if r < acc + e.cluster_weight then some e
      else selectWeightedCluster rest r (acc + e.cluster_weight)

/-- Modelled from the spec: `RouteEntryImplBase::clusterEntry` — with no
weighted-cluster list the route's primary cluster is returned; otherwise
`r = random_value mod total_cluster_weight` selects the first weighted entry
whose running weight sum exceeds `r`. -/
def clusterEntry (route : RouteEntryImplBase) (random_value : Nat) : Option RouteChoice :=
  if route.weighted_clusters.isEmpty then some RouteChoice.primaryRoute
  else
    (selectWeightedCluster route.weighted_clusters
        (random_value % route.total_cluster_weight) 0).map RouteChoice.weightedEntry

/-- The cluster name produced by `clusterEntry` for a route. -/
def chosenClusterName (route : RouteEntryImplBase) (random_value : Nat) : Option String :=
  match clusterEntry route random_value with
  | some RouteChoice.primaryRoute => some route.cluster_name
  | some (RouteChoice.weightedEntry e) => some e.cluster_name
  | none => none

/-- Sum of the weights of the first `n` weighted entries (running sum). -/
def cumWeight (entries : List WeightedClusterEntry) (n : Nat) : Nat :=
  ((entries.take n).map (fun e => e.cluster_weight)).sum

/-- Modelled from the spec: the body of `LocalRateLimiterImpl::requestAllowed`
is not under `src/` (only its declaration in `local_ratelimit_impl.h` is).
Per the spec, the call decrements each matching bucket in turn; a bucket at
zero denies the call and every decrement already performed is rolled back by
compensating increments.  `done` holds the already-decremented counters, most
recent first. -/
def decAllBuckets : List Nat → List Nat → Bool × List Nat
  | done, [] => (true, done.reverse)
  | done, t :: rest =>
      if t = 0 then
        (false, (done.map (fun x => x + 1)).reverse ++ (t :: rest))
      else decAllBuckets ((t - 1) :: done) rest

/-- A rate-limit descriptor: an ordered list of (key, value) entries. -/
abbrev RateLimitDescriptor : Type :=
  List (String × String)

/-- The token counters of the configured descriptor buckets matching the
request descriptors; matching is entry-list equality, as implemented by
`LocalDescriptorEqual` in `local_ratelimit_impl.h`. -/
def matchedBuckets (configured : List (RateLimitDescriptor × Nat))
    (request_descriptors : List RateLimitDescriptor) : List Nat :=
  (configured.filter (fun c => request_descriptors.contains c.1)).map (fun c => c.2)

/-- Modelled from the spec: `LocalRateLimiterImpl::requestAllowed` decrements
each matching descriptor bucket and then the global bucket; if any counter
would go below zero the prior decrements are rolled back and the call is
denied.  Returns the decision plus the resulting counters of the matched
buckets and the global bucket. -/
def requestAllowed (configured : List (RateLimitDescriptor × Nat))
    (request_descriptors : List RateLimitDescriptor) (globalTokens : Nat) :
    Bool × List Nat :=
  decAllBuckets [] (matchedBuckets configured request_descriptors ++ [globalTokens])

/-- Reachable member states of an `UpstreamRequest`: constructed; `start` run
on the freshly-constructed request (its only call site in the lifecycle); and
closed under the pool callbacks, connection release, and response
completion. -/
inductive ReachableUpstreamRequest : UpstreamRequestState → Prop where
  | constructed (m : Metadata) :
      ReachableUpstreamRequest (mkUpstreamRequest m)
  | started (m : Metadata) (handle : Option Nat) :
      ReachableUpstreamRequest (UpstreamRequest.start (mkUpstreamRequest m) handle).1
  | poolReady {s : UpstreamRequestState} (conn : ConnData) (host : String) :
      ReachableUpstreamRequest s →
      ReachableUpstreamRequest (UpstreamRequest.onPoolReady s conn host).1
  | poolFailure {s : UpstreamRequestState} (reason : PoolFailureReason) (host : String) :
      ReachableUpstreamRequest s →
      ReachableUpstreamRequest (UpstreamRequest.onPoolFailure s reason host).1
  | released {s : UpstreamRequestState} (close : Bool) :
      ReachableUpstreamRequest s →
      ReachableUpstreamRequest (UpstreamRequest.releaseUpStreamConnection s close).1
  | responseComplete {s : UpstreamRequestState} :
      ReachableUpstreamRequest s →
      ReachableUpstreamRequest (UpstreamRequest.onResponseComplete s)

/-- A small request metadata value used for concrete scenarios. -/
def exampleMetadata (mt : MessageType) : Metadata :=
  { messageType := mt
    requestId := 1
    streamId := 1
    strings := []
    originMessageLen := 8 }

/-- An upstream request that has called `start` and received a pool handle,
i.e. the filter chain is paused waiting for the pool. -/
def examplePausedRequest (mt : MessageType) : UpstreamRequestState :=
  (UpstreamRequest.start (mkUpstreamRequest (exampleMetadata mt)) (some 1)).1

/-- Scenario S1 route: primary cluster c1 with weighted clusters
(c2, 75) and (c3, 25). -/
def routeS1 : RouteEntryImplBase :=
  { route_name := "svc-A"
    cluster_name := "c1"
    weighted_clusters :=
      [{ cluster_name := "c2", cluster_weight := 75 },
       { cluster_name := "c3", cluster_weight := 25 }]
    total_cluster_weight := 100 }

/-- A route with no weighted clusters: selection returns the primary. -/
def routeNoWeights : RouteEntryImplBase :=
  { route_name := "svc-B"
    cluster_name := "c1"
    weighted_clusters := []
    total_cluster_weight := 100 }

/-- Configured rate-limit descriptor buckets for the concrete scenario: one
with tokens left and one exhausted. -/
def exampleConfigured : List (RateLimitDescriptor × Nat) :=
  [([("k", "v")], 2), ([("a", "b")], 0)]

/-- Request descriptors matching both configured buckets. -/
def exampleDescriptors : List RateLimitDescriptor :=
  [[("k", "v")], [("a", "b")]]

/-! Theorems -/

/-- C3: for every call to `prepareUpstreamRequest`, an absent cluster yields a
ClusterNotFound exception with detail "unknown_cluster" and no pool data; a
cluster in maintenance mode yields an Unspecified exception with detail
"cluster_in_maintenance_mode" and no pool data; a cluster returning no tcp
pool data yields a NoHealthyUpstream exception with detail
"no_healthy_upstream" and no pool data; otherwise the pool data is returned
with no exception and an empty detail string. -/
theorem prepareUpstreamRequest_matches_claim
    (getThreadLocalCluster : String → Option ThreadLocalCluster)
    (cluster_name : String) (request_id : Nat) :
    ((prepareUpstreamRequest getThreadLocalCluster cluster_name request_id).exception.map
        AppException.errorType,
      (prepareUpstreamRequest getThreadLocalCluster cluster_name request_id).conn_pool_data,
      (prepareUpstreamRequest getThreadLocalCluster cluster_name request_id).response_code_detail) =
    prepareUpstreamRequestClaimView getThreadLocalCluster cluster_name := by
  unfold prepareUpstreamRequest prepareUpstreamRequestClaimView
  cases h : getThreadLocalCluster cluster_name with
  | none => rfl
  | some cluster =>
      by_cases hm : cluster.maintenanceMode
      · simp [hm]
      · cases hp : cluster.tcpConnPool with
        | none => simp [hm, hp]
        | some pool => simp [hm, hp]

/-- C4: for every upstream connection reset with any pool-failure reason, if
the message type is Oneway then the trace is exactly a `resetStream` call on
the parent: no `sendLocalReply` of any kind is emitted. -/
theorem onUpstreamConnectionReset_oneway (s : UpstreamRequestState)
    (reason : PoolFailureReason) (h : s.metadata.messageType = MessageType.Oneway) :
    onUpstreamConnectionReset s reason = [Event.resetStream] := by
  simp [onUpstreamConnectionReset, h]

/-- Witness for C4 at a concrete Oneway request and Timeout reason. -/
theorem onUpstreamConnectionReset_oneway_witness :
    onUpstreamConnectionReset (examplePausedRequest MessageType.Oneway)
      PoolFailureReason.Timeout = [Event.resetStream] :=
  onUpstreamConnectionReset_oneway _ _ (by decide)

/-- C5: `releaseUpStreamConnection` leaves the request with neither a pool
handle nor connection data; a pending handle is cancelled with the Default
policy before any connection handling; the connection is closed with NoFlush
exactly when `close` is true and connection data was held (the data having
been moved out of `conn_data_` first, as the resulting state shows). -/
theorem releaseUpStreamConnection_spec (s : UpstreamRequestState) (close : Bool) :
    (UpstreamRequest.releaseUpStreamConnection s close).1.conn_pool_handle_ = none
    ∧ (UpstreamRequest.releaseUpStreamConnection s close).1.conn_data_ = none
    ∧ (UpstreamRequest.releaseUpStreamConnection s close).1.stream_reset_ = true
    ∧ (UpstreamRequest.releaseUpStreamConnection s close).2 =
        (if s.conn_pool_handle_.isSome then
          [Event.cancelPoolHandle CancelPolicy.Default] else []) ++
        (if close && s.conn_data_.isSome then
          [Event.closeUpstreamConnection ConnectionCloseType.NoFlush] else []) := by
  cases h : s.conn_pool_handle_ with
  | none => simp [UpstreamRequest.releaseUpStreamConnection, h]
  | some v => simp [UpstreamRequest.releaseUpStreamConnection, h]

/-- C1 counterexample: the claim asserts every Timeout pool failure sends a
local reply in addition to resuming the decoder chain, but for a Oneway
request `onPoolFailure` resumes the chain while sending no local reply at all
(the stream is reset instead). -/
theorem onPoolFailure_oneway_counterexample :
    Event.continueDecoding ∈ (UpstreamRequest.onPoolFailure
      (examplePausedRequest MessageType.Oneway) PoolFailureReason.Timeout "h").2
    ∧ hasLocalReply (UpstreamRequest.onPoolFailure
      (examplePausedRequest MessageType.Oneway) PoolFailureReason.Timeout "h").2 = false
    ∧ Event.resetStream ∈ (UpstreamRequest.onPoolFailure
      (examplePausedRequest MessageType.Oneway) PoolFailureReason.Timeout "h").2 := by
  decide

/-- C1 (amended): for every pool failure delivered via `onPoolFailure` (both
the pool-based and the handler-based upstream request), `continueDecoding` is
invoked on the owning RequestOwner iff the reason is not Overflow; a local
reply accompanies it only when the message type is not Oneway, a Oneway
request being reset without any reply. -/
theorem onPoolFailure_resume_and_reply (s : UpstreamRequestState)
    (reason : PoolFailureReason) (host : String) :
    (Event.continueDecoding ∈ (UpstreamRequest.onPoolFailure s reason host).2 ↔
      reason ≠ PoolFailureReason.Overflow)
    ∧ (Event.continueDecoding ∈ (UpstreamRequestByHandler.onPoolFailure s reason host).2 ↔
      reason ≠ PoolFailureReason.Overflow)
    ∧ (s.metadata.messageType ≠ MessageType.Oneway →
      hasLocalReply (UpstreamRequest.onPoolFailure s reason host).2 = true)
    ∧ (s.metadata.messageType = MessageType.Oneway →
      hasLocalReply (UpstreamRequest.onPoolFailure s reason host).2 = false) := by
  by_cases ho : s.metadata.messageType = MessageType.Oneway <;>
    by_cases hr : s.response_complete_ <;>
      cases reason <;>
        simp [UpstreamRequest.onPoolFailure, UpstreamRequestByHandler.onPoolFailure,
          onUpstreamConnectionReset, hasLocalReply, ho, hr]

/-- Witness for C1 (amended) at a concrete paused Request-type request with a
Timeout failure: the chain resumes and a local reply is sent. -/
theorem onPoolFailure_resume_and_reply_witness :
    Event.continueDecoding ∈ (UpstreamRequest.onPoolFailure
      (examplePausedRequest MessageType.Request) PoolFailureReason.Timeout "h").2
    ∧ hasLocalReply (UpstreamRequest.onPoolFailure
      (examplePausedRequest MessageType.Request) PoolFailureReason.Timeout "h").2 = true := by
  have h := onPoolFailure_resume_and_reply (examplePausedRequest MessageType.Request)
    PoolFailureReason.Timeout "h"
  exact ⟨h.1.mpr (by decide), h.2.2.1 (by decide)⟩

/-- C2: on every `onPoolReady`, upstream callbacks are registered iff the
message type is Request; `RealServerAddress` is written into the request
metadata with the upstream connection's remote address; and `continueDecoding`
is invoked on the parent iff a pool handle was pending (the chain had been
paused). -/
theorem onPoolReady_spec (s : UpstreamRequestState) (conn : ConnData) (host : String) :
    (Event.addUpstreamCallbacks ∈ (UpstreamRequest.onPoolReady s conn host).2 ↔
      s.metadata.messageType = MessageType.Request)
    ∧ (UpstreamRequest.onPoolReady s conn host).1.metadata.getString
        ReservedHeaders.RealServerAddress = some conn.remoteAddress
    ∧ (Event.continueDecoding ∈ (UpstreamRequest.onPoolReady s conn host).2 ↔
      s.conn_pool_handle_.isSome = true) := by
  by_cases hq : s.metadata.messageType = MessageType.Request <;>
    by_cases hs : s.metadata.messageType = MessageType.Stream_Init <;>
      by_cases hp : s.conn_pool_handle_.isSome <;>
        simp [UpstreamRequest.onPoolReady, UpstreamRequest.poolReadyMidState,
          UpstreamRequest.encodeData, onRequestStart, Metadata.putString,
          Metadata.getString, hq, hs, hp]

/-- C6: for a Stream_Init request, `onPoolReady` resets the current router
stream and transfers the connection data to the parent via
`setUpstreamConnection`, both strictly before `onRequestComplete` runs, and
after the call the upstream request no longer holds the connection data. -/
theorem onPoolReady_streamInit_transfer (s : UpstreamRequestState) (conn : ConnData)
    (host : String) (h : s.metadata.messageType = MessageType.Stream_Init) :
    (UpstreamRequest.onPoolReady s conn host).1.conn_data_ = none
    ∧ ∃ i j k, i < k ∧ j < k
        ∧ (UpstreamRequest.onPoolReady s conn host).2.get? i = some Event.resetStream
        ∧ (UpstreamRequest.onPoolReady s conn host).2.get? j =
            some (Event.setUpstreamConnection conn)
        ∧ (UpstreamRequest.onPoolReady s conn host).2.get? k =
            some Event.onRequestCompleteMark := by
  by_cases hp : s.conn_pool_handle_.isSome
  · refine ⟨?_, 5, 6, 7, by omega, by omega, ?_, ?_, ?_⟩ <;>
      simp [UpstreamRequest.onPoolReady, UpstreamRequest.poolReadyMidState,
        UpstreamRequest.encodeData, onRequestStart, Metadata.putString, h, hp]
  · refine ⟨?_, 4, 5, 6, by omega, by omega, ?_, ?_, ?_⟩ <;>
      simp [UpstreamRequest.onPoolReady, UpstreamRequest.poolReadyMidState,
        UpstreamRequest.encodeData, onRequestStart, Metadata.putString, h, hp]

/-- Witness for C6 at a concrete paused Stream_Init request. -/
theorem onPoolReady_streamInit_transfer_witness :
    (UpstreamRequest.onPoolReady (examplePausedRequest MessageType.Stream_Init)
        { remoteAddress := "9.9.9.9" } "h").1.conn_data_ = none
    ∧ ∃ i j k, i < k ∧ j < k
        ∧ (UpstreamRequest.onPoolReady (examplePausedRequest MessageType.Stream_Init)
            { remoteAddress := "9.9.9.9" } "h").2.get? i = some Event.resetStream
        ∧ (UpstreamRequest.onPoolReady (examplePausedRequest MessageType.Stream_Init)
            { remoteAddress := "9.9.9.9" } "h").2.get? j =
              some (Event.setUpstreamConnection { remoteAddress := "9.9.9.9" })
        ∧ (UpstreamRequest.onPoolReady (examplePausedRequest MessageType.Stream_Init)
            { remoteAddress := "9.9.9.9" } "h").2.get? k =
              some Event.onRequestCompleteMark :=
  onPoolReady_streamInit_transfer (examplePausedRequest MessageType.Stream_Init)
    { remoteAddress := "9.9.9.9" } "h" (by decide)

/-- C9 counterexample: the claim asserts the outlier detector receives
LocalOriginConnectFailed for a LocalConnectionFailure pool failure, but the
source reports nothing to the outlier detector in that case. -/
theorem onPoolFailure_localConnFailure_counterexample :
    outlierResults (UpstreamRequest.onPoolFailure
      (examplePausedRequest MessageType.Request)
      PoolFailureReason.LocalConnectionFailure "h").2 = [] := by
  decide

/-- C9 (amended): for asynchronous pool failures handled by
`UpstreamRequest::onPoolFailure`, the selected host's outlier detector
receives LocalOriginTimeout for Timeout and LocalOriginConnectFailed for
RemoteConnectionFailure; LocalConnectionFailure (and Overflow) report no
outlier result. -/
theorem onPoolFailure_outlier_results (s : UpstreamRequestState) (host : String) :
    outlierResults (UpstreamRequest.onPoolFailure s
      PoolFailureReason.Timeout host).2 = [OutlierResult.LocalOriginTimeout]
    ∧ outlierResults (UpstreamRequest.onPoolFailure s
      PoolFailureReason.RemoteConnectionFailure host).2 =
        [OutlierResult.LocalOriginConnectFailed]
    ∧ outlierResults (UpstreamRequest.onPoolFailure s
      PoolFailureReason.LocalConnectionFailure host).2 = []
    ∧ outlierResults (UpstreamRequest.onPoolFailure s
      PoolFailureReason.Overflow host).2 = [] := by
  by_cases ho : s.metadata.messageType = MessageType.Oneway <;>
    by_cases hr : s.response_complete_ <;>
      simp [UpstreamRequest.onPoolFailure, onUpstreamConnectionReset,
        outlierResults, ho, hr]

/-- Helper: `onPoolReady` always clears the pool handle in the resulting
state, whichever branch the message type takes. -/
theorem onPoolReady_clears_handle (s : UpstreamRequestState) (conn : ConnData)
    (host : String) :
    (UpstreamRequest.onPoolReady s conn host).1.conn_pool_handle_ = none := by
  simp only [UpstreamRequest.onPoolReady, UpstreamRequest.poolReadyMidState]
  split <;> rfl

/-- C10: in every reachable state of an `UpstreamRequest`, at most one of the
pool handle and the connection data is held (so a pending handle implies no
connection data, as asserted by `releaseUpStreamConnection`); and at the point
inside `onPoolReady` where `encodeData` runs, connection data is held and no
pool handle is pending, as `encodeData` asserts. -/
theorem upstreamRequest_handle_conn_exclusive (s : UpstreamRequestState)
    (h : ReachableUpstreamRequest s) :
    (s.conn_pool_handle_ = none ∨ s.conn_data_ = none)
    ∧ (s.conn_pool_handle_.isSome = true → s.conn_data_ = none)
    ∧ ∀ conn host,
        (UpstreamRequest.poolReadyMidState s conn host).conn_data_.isSome = true
        ∧ (UpstreamRequest.poolReadyMidState s conn host).conn_pool_handle_ = none := by
  have hmid : ∀ (t : UpstreamRequestState) (conn : ConnData) (host : String),
      (UpstreamRequest.poolReadyMidState t conn host).conn_data_.isSome = true
      ∧ (UpstreamRequest.poolReadyMidState t conn host).conn_pool_handle_ = none := by
    intro t conn host
    simp [UpstreamRequest.poolReadyMidState]
  cases h with
  | constructed m =>
      exact ⟨Or.inl rfl, fun hc => rfl, hmid _⟩
  | started m handle =>
      cases handle with
      | none => exact ⟨Or.inl rfl, fun hc => rfl, hmid _⟩
      | some v => exact ⟨Or.inr rfl, fun hc => rfl, hmid _⟩
  | poolReady conn host hs =>
      refine ⟨Or.inl (onPoolReady_clears_handle _ _ _), fun hc => ?_, hmid _⟩
      rw [onPoolReady_clears_handle] at hc
      simp at hc
  | poolFailure reason host hs =>
      refine ⟨Or.inl ?_, fun hc => ?_, hmid _⟩ <;>
        simp_all [UpstreamRequest.onPoolFailure]
  | released close hs =>
      refine ⟨Or.inl ?_, fun hc => ?_, hmid _⟩ <;>
        simp_all [UpstreamRequest.releaseUpStreamConnection]
  | responseComplete hs =>
      refine ⟨Or.inr ?_, fun hc => ?_, hmid _⟩ <;>
        simp_all [UpstreamRequest.onResponseComplete]

/-- Witness for C10 at the concrete reachable state reached by constructing a
request and running `start` with a pool handle. -/
theorem upstreamRequest_handle_conn_exclusive_witness :
    ((examplePausedRequest MessageType.Request).conn_pool_handle_ = none ∨
      (examplePausedRequest MessageType.Request).conn_data_ = none)
    ∧ ((examplePausedRequest MessageType.Request).conn_pool_handle_.isSome = true →
      (examplePausedRequest MessageType.Request).conn_data_ = none) := by
  have h := upstreamRequest_handle_conn_exclusive (examplePausedRequest MessageType.Request)
    (ReachableUpstreamRequest.started (exampleMetadata MessageType.Request) (some 1))
  exact ⟨h.1, h.2.1⟩

/-- The running weight sum over zero entries is zero. -/
theorem cumWeight_zero (entries : List WeightedClusterEntry) : cumWeight entries 0 = 0 := by
  simp [cumWeight]

/-- Unfolding the running weight sum one entry at a time. -/
theorem cumWeight_cons (e : WeightedClusterEntry) (rest : List WeightedClusterEntry)
    (n : Nat) : cumWeight (e :: rest) (n + 1) = e.cluster_weight + cumWeight rest n := by
  simp [cumWeight]

/-- Helper: a selected weighted entry is the first whose running sum
(offset by the accumulator) exceeds `r`. -/
theorem selectWeightedCluster_sound (entries : List WeightedClusterEntry) (r : Nat)
    (e : WeightedClusterEntry) :
    ∀ acc, selectWeightedCluster entries r acc = some e →
      ∃ i, entries.get? i = some e
        ∧ r < acc + cumWeight entries (i + 1)
        ∧ ∀ j, j < i → acc + cumWeight entries (j + 1) ≤ r := by
  induction entries with
  | nil => intro acc h; simp [selectWeightedCluster] at h
  | cons e0 rest ih =>
      intro acc h
      by_cases hc : r < acc + e0.cluster_weight
      · have he : e0 = e := by simpa [selectWeightedCluster, hc] using h
        subst he
        refine ⟨0, rfl, ?_, fun j hj => absurd hj (Nat.not_lt_zero j)⟩
        rw [cumWeight_cons, cumWeight_zero]
        omega
      · have h' : selectWeightedCluster rest r (acc + e0.cluster_weight) = some e := by
          simpa [selectWeightedCluster, hc] using h
        obtain ⟨i, hi, hlt, hall⟩ := ih (acc + e0.cluster_weight) h'
        refine ⟨i + 1, by simpa using hi, ?_, ?_⟩
        · rw [cumWeight_cons]
          omega
        · intro j hj
          cases j with
          | zero =>
              rw [cumWeight_cons, cumWeight_zero]
              omega
          | succ j' =>
              have := hall j' (by omega)
              rw [cumWeight_cons]
              omega

/-- Helper: a weighted entry selected with accumulator at most `r` has
positive weight: zero-weight entries are never selected. -/
theorem selectWeightedCluster_pos (entries : List WeightedClusterEntry) (r : Nat)
    (e : WeightedClusterEntry) :
    ∀ acc, acc ≤ r → selectWeightedCluster entries r acc = some e →
      0 < e.cluster_weight := by
  induction entries with
  | nil => intro acc _ h; simp [selectWeightedCluster] at h
  | cons e0 rest ih =>
      intro acc hacc h
      by_cases hc : r < acc + e0.cluster_weight
      · have he : e0 = e := by simpa [selectWeightedCluster, hc] using h
        subst he
        omega
      · exact ih (acc + e0.cluster_weight) (by omega)
          (by simpa [selectWeightedCluster, hc] using h)

/-- C7: cluster selection uses `r = random_value mod total_cluster_weight` and
returns the first weighted entry whose running weight sum exceeds `r`; a
zero-weight entry is never selected; an empty weighted list returns the
route's primary cluster; and for the S1 route with weighted clusters
(c2, 75), (c3, 25), random value 10 selects c2 and random value 80 selects
c3. -/
theorem clusterEntry_weighted_selection (route : RouteEntryImplBase) (v : Nat) :
    (route.weighted_clusters = [] → chosenClusterName route v = some route.cluster_name)
    ∧ (∀ e, clusterEntry route v = some (RouteChoice.weightedEntry e) →
        0 < e.cluster_weight
        ∧ ∃ i, route.weighted_clusters.get? i = some e
            ∧ v % route.total_cluster_weight < cumWeight route.weighted_clusters (i + 1)
            ∧ ∀ j, j < i →
                cumWeight route.weighted_clusters (j + 1) ≤ v % route.total_cluster_weight)
    ∧ chosenClusterName routeS1 10 = some "c2"
    ∧ chosenClusterName routeS1 80 = some "c3" := by
  refine ⟨?_, ?_, by decide, by decide⟩
  · intro he
    simp [chosenClusterName, clusterEntry, he]
  · intro e he
    unfold clusterEntry at he
    by_cases hne : route.weighted_clusters.isEmpty
    · simp [hne] at he
    · simp only [hne, if_false, Option.map_eq_some', Bool.false_eq_true] at he
      obtain ⟨a, hsel, heq⟩ := he
      have ha : a = e := by
        cases heq
        rfl
      subst ha
      refine ⟨selectWeightedCluster_pos _ _ _ 0 (Nat.zero_le _) hsel, ?_⟩
      obtain ⟨i, hi, hlt, hall⟩ := selectWeightedCluster_sound _ _ _ 0 hsel
      refine ⟨i, hi, by omega, fun j hj => ?_⟩
      have := hall j hj
      omega

/-- Witness for C7: the empty-weighted-list case at a concrete route, and the
S1 selection at random value 10. -/
theorem clusterEntry_weighted_selection_witness :
    chosenClusterName routeNoWeights 5 = some "c1"
    ∧ chosenClusterName routeS1 10 = some "c2" := by
  have h1 := clusterEntry_weighted_selection routeNoWeights 5
  have h2 := clusterEntry_weighted_selection routeS1 10
  exact ⟨h1.1 rfl, h2.2.2.1⟩

/-- Helper: a denied pass over the buckets rolls every decrement back: the
resulting counters are the compensated accumulator followed by the untouched
remainder. -/
theorem decAllBuckets_denied_restores (l : List Nat) :
    ∀ done, (decAllBuckets done l).1 = false →
      (decAllBuckets done l).2 = (done.map (fun x => x + 1)).reverse ++ l := by
  induction l with
  | nil => intro done h; simp [decAllBuckets] at h
  | cons t rest ih =>
      intro done h
      by_cases ht : t = 0
      · simp [decAllBuckets, ht]
      · have ht' : t - 1 + 1 = t := by omega
        have h' : (decAllBuckets ((t - 1) :: done) rest).1 = false := by
          simpa [decAllBuckets, ht] using h
        calc (decAllBuckets done (t :: rest)).2
            = (decAllBuckets ((t - 1) :: done) rest).2 := by
              simp [decAllBuckets, ht]
          _ = ((((t - 1) :: done).map (fun x => x + 1)).reverse) ++ rest := ih _ h'
          _ = (done.map (fun x => x + 1)).reverse ++ (t :: rest) := by
              simp [ht']

/-- Helper: the pass is denied exactly when some bucket in the remaining list
is out of tokens. -/
theorem decAllBuckets_denied_iff (l : List Nat) :
    ∀ done, ((decAllBuckets done l).1 = false ↔ 0 ∈ l) := by
  induction l with
  | nil => intro done; simp [decAllBuckets]
  | cons t rest ih =>
      intro done
      by_cases ht : t = 0
      · simp [decAllBuckets, ht]
      · have ht2 : (0 : Nat) ≠ t := fun h => ht h.symm
        simp [decAllBuckets, ht, ih, ht2]

/-- C8: `requestAllowed` is denied exactly when some matching descriptor
bucket or the global bucket has no token left (a decrement would take its
counter below zero), and a denied call leaves every bucket's token count
exactly as it was before the call: all decrements performed during the call
are rolled back. -/
theorem requestAllowed_denied_rollback (configured : List (RateLimitDescriptor × Nat))
    (request_descriptors : List RateLimitDescriptor) (globalTokens : Nat) :
    ((requestAllowed configured request_descriptors globalTokens).1 = false ↔
      0 ∈ matchedBuckets configured request_descriptors ∨ globalTokens = 0)
    ∧ ((requestAllowed configured request_descriptors globalTokens).1 = false →
      (requestAllowed configured request_descriptors globalTokens).2 =
        matchedBuckets configured request_descriptors ++ [globalTokens]) := by
  constructor
  · rw [requestAllowed, decAllBuckets_denied_iff]
    simp [eq_comm]
  · intro h
    rw [requestAllowed] at h ⊢
    simpa using decAllBuckets_denied_restores _ [] h

/-- Witness for C8 at concrete buckets: with a bucket at 2 tokens, a bucket at
0 tokens and a global bucket at 5, the call is denied and all counters are
unchanged. -/
theorem requestAllowed_denied_rollback_witness :
    (requestAllowed exampleConfigured exampleDescriptors 5).1 = false
    ∧ (requestAllowed exampleConfigured exampleDescriptors 5).2 = [2, 0, 5] := by
  have h := requestAllowed_denied_rollback exampleConfigured exampleDescriptors 5
  refine ⟨h.1.mpr (by decide), (h.2 (h.1.mpr (by decide))).trans (by decide)⟩
